import Mathlib

/-!
Verification of the common-operating-picture scripts (read_s4.py, seed_data.py):
a shallow embedding of the S3-URI handling, the gated read, the token
acquisition, the STS credential exchange and the tagged upload, together with
theorems settling the specification claims about them.

Network and library effects are made explicit: the HTTP/S3 responses a function
reacts to are passed in as values (`HttpResponse`, `S3GetResult`) or as a
response function (`getObject`), and the function body is translated from the
Python source so that each branch of the source appears as a branch here.
-/

/-! ## Configuration constants (read_s4.py lines 19-28, seed_data.py lines 23-41) -/

/-- Default of `KC_URL = os.getenv("KEYCLOAK_URL", ...)` (read_s4.py line 19). -/
def KC_URL : String := "https://local-dsp.virtru.com:8443/auth"

/-- Default of `KC_REALM = os.getenv("REALM", "opentdf")` (read_s4.py line 20). -/
def KC_REALM : String := "opentdf"

/-- Default of `KC_PASS = os.getenv("PASSWORD", "testuser123")` (read_s4.py line 22). -/
def KC_PASS : String := "testuser123"

/-- Token endpoint URL built in get_jwt (read_s4.py line 41):
`f"{KC_URL}/realms/{KC_REALM}/protocol/openid-connect/token"`. -/
def token_url : String := KC_URL ++ "/realms/" ++ KC_REALM ++ "/protocol/openid-connect/token"

/-- `S4_S3_URL = "http://localhost:7070"` (read_s4.py line 27). -/
def S4_S3_URL : String := "http://localhost:7070"

/-- `S4_BUCKET = "cop-demo"` (read_s4.py line 28, seed_data.py line 40). -/
def S4_BUCKET : String := "cop-demo"

/-! ## S3 URI parsing (read_s4.py lines 143-154) -/

/-- Python `str.split(sep, 1)`: split at the first occurrence of `sep` only.
Result `(before, some after)` when `sep` occurs, `(whole, none)` when it does
not — mirroring the list of length 2 versus length 1 that Python returns. -/
def splitFirst (sep : Char) : List Char → List Char × Option (List Char)
  | [] => ([], none)
  | c :: cs =>
    if c = sep then ([], some cs)
    else
      let r := splitFirst sep cs
      (c :: r.1, r.2)

/-- The scheme characters checked by `s3_uri.startswith('s3://')` (read_s4.py line 146). -/
def s3SchemeChars : List Char := ['s', '3', ':', '/', '/']

/-- Translation of parse_s3_uri (read_s4.py lines 143-154).
`if not s3_uri or not s3_uri.startswith('s3://'): return None, None` — an empty
string fails the scheme check here exactly as it is falsy there;
`path = s3_uri[5:]; parts = path.split('/', 1)`; two parts give
`(bucket, key)`, one part gives `(bucket, None)`. -/
def parse_s3_uri (s : String) : Option String × Option String :=
  if s.data.take 5 = s3SchemeChars then
    match splitFirst '/' (s.data.drop 5) with
    | (b, some k) => (some (String.mk b), some (String.mk k))
    | (b, none) => (some (String.mk b), none)
  else (none, none)

/-! ## Gated read (read_s4.py lines 159-181) -/

/-- Result of the intercepted `s3_client.get_object` call as fetch_manifest_from_s4
observes it: a decrypted utf-8 body on success, or a botocore ClientError whose
`Error.Code` string the handler extracts (read_s4.py lines 169-179). An access
denial (401/403/AccessDenied) and a missing object (404/NoSuchKey) both surface
as `clientError` with different code strings. -/
inductive S3GetResult where
  | success (body : String)
  | clientError (code : String)
deriving DecidableEq

/-- Value produced on the success path of fetch_manifest_from_s4: the parsed
JSON structure when `json.loads` succeeds, the raw plaintext when it raises
JSONDecodeError (read_s4.py lines 172-176). `J` is the type of parsed values. -/
inductive FetchResult (J : Type) where
  | json (j : J)
  | raw (s : String)
deriving DecidableEq

/-- Dispatch decision of fetch_manifest_from_s4 (read_s4.py lines 161-165):
`bucket, key = parse_s3_uri(s3_uri); if not bucket or not key: return None`.
Python falsiness makes both `None` and the empty string fail the guard, so a
get_object request is dispatched — `some (bucket, key)` — exactly when both
components are present and non-empty. -/
def fetch_dispatch (uri : String) : Option (String × String) :=
  match parse_s3_uri uri with
  | (some b, some k) => if b = "" ∨ k = "" then none else some (b, k)
  | _ => none

/-- Translation of fetch_manifest_from_s4 (read_s4.py lines 159-181).
`decode` stands for `json.loads` (`none` = JSONDecodeError), `getObject` for the
S4-intercepted `s3_client.get_object`. An invalid URI returns None with no
request; a ClientError of any code is caught, logged and returns None; a 200
body is returned parsed if possible, raw otherwise. -/
def fetch_manifest_from_s4 {J : Type} (decode : String → Option J)
    (getObject : String → String → S3GetResult) (uri : String) :
    Option (FetchResult J) :=
  match fetch_dispatch uri with
  | none => none
  | some (b, k) =>
    match getObject b k with
    | S3GetResult.success body =>
      match decode body with
      | some j => some (FetchResult.json j)
      | none => some (FetchResult.raw body)
    | S3GetResult.clientError _ => none

/-! ## Token acquisition (read_s4.py lines 39-54, seed_data.py lines 102-117) -/

/-- JSON value, the shape of `response.json()` as get_jwt consumes it. -/
inductive JVal where
  | s (v : String)
  | n (v : Int)
  | b (v : Bool)
  | null
  | arr (xs : List JVal)
  | obj (fields : List (String × JVal))

/-- Python dict lookup `d[k]` on a parsed JSON object: first binding wins,
`none` models the KeyError on a missing key. -/
def jlookup (fields : List (String × JVal)) (k : String) : Option JVal :=
  match fields with
  | [] => none
  | (k1, v) :: rest => if k1 = k then some v else jlookup rest k

/-- An HTTP response as the requests library hands it back: status code, body
text, and the parsed JSON body (`none` when `response.json()` would raise). -/
structure HttpResponse where
  status : Nat
  text : String
  json : Option JVal

/-- The form-encoded request get_jwt posts to the token endpoint
(read_s4.py lines 41-52): password grant for the given username with the
module-level password, client credentials in the Basic header. -/
structure TokenRequest where
  url : String
  grantType : String
  username : String
  password : String
deriving DecidableEq

/-- The outbound requests issued by one call of get_jwt (read_s4.py line 52):
the body contains a single `requests.post` and no loop or retry. -/
def get_jwt_requests (username : String) : List TokenRequest :=
  [{ url := token_url, grantType := "password", username := username, password := KC_PASS }]

/-- Behavior of requests' `Response.raise_for_status()`: it raises HTTPError
exactly for status codes in [400, 600) — a 1xx/2xx/3xx status does not raise. -/
def raise_for_status_raises (status : Nat) : Bool :=
  decide (400 ≤ status ∧ status < 600)

/-- Result of get_jwt: the returned `access_token` value, the HTTPError raised
by `raise_for_status` (carrying the response), or the exception from
`response.json()["access_token"]` (JSONDecodeError / KeyError / non-object). -/
inductive GetJwtResult where
  | ok (accessToken : JVal)
  | httpError (status : Nat) (body : String)
  | keyError

/-- Response handling of get_jwt (read_s4.py lines 52-54):
`response.raise_for_status(); return response.json()["access_token"]`.
The returned value is whatever the provider put in the `access_token` field —
the source applies no further validation to it. -/
def get_jwt_handle (resp : HttpResponse) : GetJwtResult :=
  if raise_for_status_raises resp.status then GetJwtResult.httpError resp.status resp.text
  else
    match resp.json with
    | some (JVal.obj fields) =>
      match jlookup fields "access_token" with
      | some v => GetJwtResult.ok v
      | none => GetJwtResult.keyError
    | _ => GetJwtResult.keyError

/-! ## STS credential exchange (read_s4.py lines 57-79, seed_data.py lines 120-140) -/

/-- The assume-role-with-web-identity request issued by get_s4_client
(read_s4.py lines 63-68): fixed role ARN, fixed session name, the acquired
token, fixed 3600-second duration. -/
structure StsRequest where
  roleArn : String
  roleSessionName : String
  webIdentityToken : String
  durationSeconds : Nat
deriving DecidableEq

/-- The exact request built at read_s4.py lines 63-68. -/
def s4_sts_request (token : String) : StsRequest :=
  { roleArn := "arn:aws:iam::xxxx:xxx/xxx"
    roleSessionName := "WebIdentitySession"
    webIdentityToken := token
    durationSeconds := 3600 }

/-- Outcome of the exchange step: either an STS network call is dispatched, or
the function fast-fails locally on an expired token before any network call.
The second constructor is the outcome the specification describes; the source
never produces it. -/
inductive ExchangeOutcome where
  | dispatched (req : StsRequest)
  | expiredTokenFastFail
deriving DecidableEq

/-- The exchange step of get_s4_client (read_s4.py lines 59-68): after get_jwt
returns the token string, `sts.assume_role_with_web_identity(...)` is called
unconditionally — the body contains no branch. The token's declared expiry and
the current clock are parameters only so that independence from them is
expressible; the source reads neither (the expiry is inside the opaque JWT and
is never inspected). -/
def exchange_step (token : String) (tokenExpiry now : Int) : ExchangeOutcome :=
  ExchangeOutcome.dispatched (s4_sts_request token)

/-- The credential fields get_s4_client reads out of the STS response
(read_s4.py lines 70-76): `creds['AccessKeyId']`, `creds['SecretAccessKey']`,
`creds.get('SessionToken')`. The response also carries an Expiration, modelled
as an optional epoch second; the source never reads it. -/
structure StsCredentials where
  accessKeyId : String
  secretAccessKey : String
  sessionToken : Option String
  expiration : Option Int
deriving DecidableEq

/-- The S3 client configuration get_s4_client returns (read_s4.py lines 71-79,
identically get_s4_s3_client at seed_data.py lines 132-140). -/
structure S3ClientConfig where
  endpointUrl : String
  accessKeyId : String
  secretAccessKey : String
  sessionToken : Option String
  regionName : String
deriving DecidableEq

/-- Translation of the tail of get_s4_client (read_s4.py lines 70-79): build
the boto3 S3 client directly from the credentials in the STS response. There
is no inspection of `creds` beyond field access — in particular no expiry
check and no failure path. -/
def get_s4_client_from_creds (creds : StsCredentials) : S3ClientConfig :=
  { endpointUrl := S4_S3_URL
    accessKeyId := creds.accessKeyId
    secretAccessKey := creds.secretAccessKey
    sessionToken := creds.sessionToken
    regionName := "us-east-1" }

/-! ## Tagged upload (seed_data.py lines 143-155) -/

/-- Metadata key for the i-th attribute: `f'tdf-data-attribute-{i}'`
(seed_data.py line 147), with Python's decimal rendering of `i` given by
Lean's `toString`. -/
def tag_key (i : Nat) : String := "tdf-data-attribute-" ++ toString i

/-- The metadata dict built by upload_to_s4 (seed_data.py lines 145-147):
`for i, attr in enumerate(attributes): metadata[f'tdf-data-attribute-{i}'] = attr`,
as the list of insertions in order. -/
def upload_metadata (attributes : List String) : List (String × String) :=
  attributes.enum.map (fun p => (tag_key p.1, p.2))

/-- The put_object request issued by upload_to_s4 (seed_data.py lines 149-154). -/
structure PutRequest where
  bucket : String
  key : String
  body : String
  metadata : List (String × String)
deriving DecidableEq

/-- Translation of upload_to_s4 (seed_data.py lines 143-155): build the
metadata from the attribute list, put the payload (`payload` stands for the
`json.dumps(data_dict).encode('utf-8')` bytes) under the configured bucket and
the caller-supplied filename, and return `f"s3://{S4_BUCKET}/{filename}"`. -/
def upload_to_s4 (filename : String) (payload : String) (attributes : List String) :
    PutRequest × String :=
  ({ bucket := S4_BUCKET, key := filename, body := payload,
     metadata := upload_metadata attributes },
   "s3://" ++ S4_BUCKET ++ "/" ++ filename)

/-! ## Concrete fixtures used by counterexamples and witnesses -/

/-- A store whose get_object always raises ClientError with code AccessDenied
(the S4 denial, read_s4.py line 179). -/
def deniedStore : String → String → S3GetResult := fun _ _ => S3GetResult.clientError "AccessDenied"

/-- A store whose get_object always raises ClientError with code NoSuchKey
(the S3 absent-object error). -/
def notFoundStore : String → String → S3GetResult := fun _ _ => S3GetResult.clientError "NoSuchKey"

/-- A store whose get_object always raises ClientError with HTTP code 403. -/
def denied403Store : String → String → S3GetResult := fun _ _ => S3GetResult.clientError "403"

/-- A store whose get_object always succeeds with the body "hello". -/
def helloStore : String → String → S3GetResult := fun _ _ => S3GetResult.success "hello"

/-- A `json.loads` stand-in that always raises JSONDecodeError. -/
def noDecode : String → Option Unit := fun _ => none

/-- A 302 redirect response whose body happens to parse as a token document. -/
def resp302 : HttpResponse :=
  { status := 302, text := "redirect", json := some (JVal.obj [("access_token", JVal.s "tok")]) }

/-- A 401 invalid-grant response from the identity provider. -/
def resp401 : HttpResponse :=
  { status := 401, text := "invalid_grant", json := none }

/-- A 200 response whose access_token field is the empty string. -/
def resp200empty : HttpResponse :=
  { status := 200, text := "", json := some (JVal.obj [("access_token", JVal.s "")]) }

/-- A 200 response carrying a normal bearer token. -/
def resp200ok : HttpResponse :=
  { status := 200, text := "", json := some (JVal.obj [("access_token", JVal.s "tok-abc")]) }

/-! ## Proof infrastructure: decoding decimal renderings

Used only to establish that Lean's decimal rendering of naturals (Python's
`f'{i}'`) is injective, so that the index-qualified metadata keys of
upload_to_s4 are pairwise distinct. -/

/-- Numeric value of a decimal digit character. -/
def decodeDigit (c : Char) : Nat := c.toNat - 48

/-- Numeric value of a run of decimal digit characters. -/
def decodeDec (l : List Char) : Nat := l.foldl (fun acc c => acc * 10 + decodeDigit c) 0

/-! ## Helper lemmas on URI parsing -/

/-- splitFirst finds the first separator: a separator-free left part is returned
whole, with everything after the first separator as the remainder. -/
theorem splitFirst_append (sep : Char) (b k : List Char) (hb : sep ∉ b) :
    splitFirst sep (b ++ sep :: k) = (b, some k) := by
  induction b with
  | nil => simp [splitFirst]
  | cons c cs ih =>
    have hc : c ≠ sep := fun h => hb (h ▸ List.mem_cons_self c cs)
    have hm : sep ∉ cs := fun h => hb (List.mem_cons_of_mem c h)
    simp [splitFirst, hc, ih hm]

/-- parse_s3_uri inverts URI construction: with a slash-free bucket, the bucket
and the full key (slashes included) are recovered. -/
theorem parse_s3_uri_roundtrip (b k : String) (hb : '/' ∉ b.data) :
    parse_s3_uri ("s3://" ++ b ++ "/" ++ k) = (some b, some k) := by
  have hdata : ("s3://" ++ b ++ "/" ++ k).data = s3SchemeChars ++ (b.data ++ '/' :: k.data) := by
    simp only [String.data_append, List.append_assoc]
    rfl
  have h5 : s3SchemeChars.length = 5 := rfl
  unfold parse_s3_uri
  rw [hdata, List.take_left' h5, List.drop_left' h5, if_pos rfl,
    splitFirst_append '/' b.data k.data hb]

/-- A string that does not start with the s3 scheme parses to (None, None). -/
theorem parse_s3_uri_scheme_mismatch (s : String) (h : s.data.take 5 ≠ s3SchemeChars) :
    parse_s3_uri s = (none, none) := by
  unfold parse_s3_uri
  rw [if_neg h]

/-- Invalid references are filtered before dispatch: a wrong scheme, an empty
bucket, a missing key or an empty key all make the dispatch decision None. -/
theorem fetch_dispatch_eq_none (s : String)
    (h : s.data.take 5 ≠ s3SchemeChars ∨ (parse_s3_uri s).1 = some "" ∨
         (parse_s3_uri s).2 = none ∨ (parse_s3_uri s).2 = some "") :
    fetch_dispatch s = none := by
  unfold fetch_dispatch
  rcases hp : parse_s3_uri s with ⟨b, k⟩
  rcases h with h | h | h | h
  · have h0 := parse_s3_uri_scheme_mismatch s h
    rw [hp] at h0
    injection h0 with h1 h2
    subst h1; subst h2
    rfl
  · rw [hp] at h
    simp only at h
    subst h
    cases k with
    | none => rfl
    | some kv => simp
  · rw [hp] at h
    simp only at h
    subst h
    cases b with
    | none => rfl
    | some bv => rfl
  · rw [hp] at h
    simp only at h
    subst h
    cases b with
    | none => rfl
    | some bv => simp

/-! ## Claims C3, C4, C10: reference validity and parsing -/

/-- Claim C3: for every object-reference string whose scheme does not match the
expected s3 scheme or whose bucket or key component is empty (or missing), the
reference is treated as invalid: no get_object request is dispatched and
fetch_manifest_from_s4 returns the error value None. -/
theorem invalid_reference_not_dispatched {J : Type} (decode : String → Option J)
    (getObject : String → String → S3GetResult) (s : String)
    (h : s.data.take 5 ≠ s3SchemeChars ∨ (parse_s3_uri s).1 = some "" ∨
         (parse_s3_uri s).2 = none ∨ (parse_s3_uri s).2 = some "") :
    fetch_dispatch s = none ∧ fetch_manifest_from_s4 decode getObject s = none := by
  have hd := fetch_dispatch_eq_none s h
  refine ⟨hd, ?_⟩
  unfold fetch_manifest_from_s4
  rw [hd]

/-- Witness for C3 at the concretely invalid reference "http://bucket/key". -/
theorem invalid_reference_not_dispatched_witness :
    "http://bucket/key".data.take 5 ≠ s3SchemeChars
    ∧ fetch_dispatch "http://bucket/key" = none
    ∧ fetch_manifest_from_s4 noDecode helloStore "http://bucket/key" = none := by
  refine ⟨by decide, ?_⟩
  exact invalid_reference_not_dispatched noDecode helloStore "http://bucket/key"
    (Or.inl (by decide))

/-- Claim C4: parsing splits only at the first slash after the bucket — for a
slash-free bucket, `s3://bucket/key` with a key containing further slashes
yields the bucket and the key unchanged. -/
theorem parse_splits_at_first_slash (bucket key : String) (hb : '/' ∉ bucket.data) :
    parse_s3_uri ("s3://" ++ bucket ++ "/" ++ key) = (some bucket, some key) :=
  parse_s3_uri_roundtrip bucket key hb

/-- Witness for C4 at the spec's own example URI. -/
theorem parse_splits_at_first_slash_witness :
    parse_s3_uri "s3://bucket/key/with/slashes" = (some "bucket", some "key/with/slashes") :=
  parse_splits_at_first_slash "bucket" "key/with/slashes" (by decide)

/-- Claim C10: round trip of upload_to_s4 and parse_s3_uri — for every
non-empty key, parsing the URI returned by the upload yields the configured
bucket and the key unchanged. -/
theorem upload_parse_roundtrip (k payload : String) (attrs : List String) (hk : k ≠ "") :
    parse_s3_uri ((upload_to_s4 k payload attrs).2) = (some S4_BUCKET, some k) :=
  parse_s3_uri_roundtrip S4_BUCKET k (by decide)

/-- Witness for C10 at a manifest key containing slashes and dots. -/
theorem upload_parse_roundtrip_witness :
    parse_s3_uri ((upload_to_s4 "manifests/ab.json.tdf" "x" ["a"]).2)
      = (some S4_BUCKET, some "manifests/ab.json.tdf") :=
  upload_parse_roundtrip "manifests/ab.json.tdf" "x" ["a"] (by decide)

/-! ## Claim C1: read outcomes -/

/-- Counterexample to claim C1 as stated: a 403/AccessDenied ClientError and a
404/NoSuchKey ClientError produce the very same return value None — Denied and
NotFound are collapsed into one generic failure value, not returned as
distinct values. -/
theorem denied_notFound_same_value :
    fetch_manifest_from_s4 noDecode deniedStore "s3://b/k"
      = fetch_manifest_from_s4 noDecode notFoundStore "s3://b/k"
    ∧ fetch_manifest_from_s4 noDecode deniedStore "s3://b/k" = none := ⟨rfl, rfl⟩

/-- Amended claim C1: an HTTP 200 read yields the body as the outcome (settled
in C9's theorem), while every ClientError — access denied and not-found alike —
yields the single failure value None; the error code is only logged, so the
returned value does not distinguish Denied from NotFound. -/
theorem clientError_yields_none {J : Type} (decode : String → Option J)
    (getObject : String → String → S3GetResult) (uri b k code : String)
    (hd : fetch_dispatch uri = some (b, k))
    (he : getObject b k = S3GetResult.clientError code) :
    fetch_manifest_from_s4 decode getObject uri = none := by
  simp [fetch_manifest_from_s4, hd, he]

/-- Witness for the amended C1 at a concrete denied read. -/
theorem clientError_yields_none_witness :
    fetch_manifest_from_s4 noDecode denied403Store "s3://bucket/obj" = none :=
  clientError_yields_none noDecode denied403Store "s3://bucket/obj" "bucket" "obj" "403"
    rfl rfl

/-! ## Claim C9: 200 body is advisory-structured -/

/-- Claim C9: on an HTTP 200 read the body is the outcome payload regardless of
structure — a body that decodes as JSON is returned parsed, and a body that
fails to decode is returned as the raw text, never as an error. -/
theorem http200_body_returned {J : Type} (decode : String → Option J)
    (getObject : String → String → S3GetResult) (uri b k body : String)
    (hd : fetch_dispatch uri = some (b, k))
    (hs : getObject b k = S3GetResult.success body) :
    (∀ j, decode body = some j →
        fetch_manifest_from_s4 decode getObject uri = some (FetchResult.json j))
    ∧ (decode body = none →
        fetch_manifest_from_s4 decode getObject uri = some (FetchResult.raw body)) := by
  constructor
  · intro j hj
    simp [fetch_manifest_from_s4, hd, hs, hj]
  · intro hn
    simp [fetch_manifest_from_s4, hd, hs, hn]

/-- Witness for C9: the same stored body comes back parsed under a succeeding
decoder and raw under a failing decoder. -/
theorem http200_body_returned_witness :
    fetch_manifest_from_s4 (fun s => some s) helloStore "s3://b/k"
      = some (FetchResult.json "hello")
    ∧ fetch_manifest_from_s4 noDecode helloStore "s3://b/k"
      = some (FetchResult.raw "hello") :=
  ⟨(http200_body_returned (fun s => some s) helloStore "s3://b/k" "b" "k" "hello" rfl rfl).1
      "hello" rfl,
   (http200_body_returned noDecode helloStore "s3://b/k" "b" "k" "hello" rfl rfl).2 rfl⟩

/-! ## Claim C2: no local expiry check before the STS exchange -/

/-- Counterexample to claim C2 as stated: for a token whose declared expiry
(epoch 50) is already past at exchange time (epoch 100), get_s4_client still
dispatches the assume-role-with-web-identity network call — it does not
fast-fail locally with any expired-token error. -/
theorem expired_token_still_dispatches :
    (50 : Int) < 100
    ∧ exchange_step "expired-jwt" 50 100
        = ExchangeOutcome.dispatched (s4_sts_request "expired-jwt")
    ∧ exchange_step "expired-jwt" 50 100 ≠ ExchangeOutcome.expiredTokenFastFail :=
  ⟨by decide, rfl, by decide⟩

/-- Amended claim C2: get_s4_client performs no local expiry check at all — for
every token and every clock, the exchange step dispatches the STS network call;
an expired token can only be rejected by the server. -/
theorem exchange_always_dispatches (token : String) (tokenExpiry now : Int) :
    exchange_step token tokenExpiry now = ExchangeOutcome.dispatched (s4_sts_request token) :=
  rfl

/-! ## Claim C5: token-endpoint failure handling -/

/-- Counterexample to claim C5 as stated: a 302 response is non-2xx, yet
raise_for_status does not raise for it, so get_jwt does not fail with an
authentication error — here it even returns a token successfully. -/
theorem non2xx_not_always_error :
    ¬(200 ≤ resp302.status ∧ resp302.status < 300)
    ∧ get_jwt_handle resp302 = GetJwtResult.ok (JVal.s "tok") :=
  ⟨by decide, rfl⟩

/-- Amended claim C5: for every 4xx/5xx response the acquisition fails with an
HTTP error carrying the provider's status and error body (raise_for_status
raises only for [400, 600), so a 3xx non-2xx status is not an error path), and
each invocation issues exactly one outbound token-endpoint request. -/
theorem http_4xx_5xx_error_and_single_request (resp : HttpResponse) (u : String)
    (h : 400 ≤ resp.status ∧ resp.status < 600) :
    get_jwt_handle resp = GetJwtResult.httpError resp.status resp.text
    ∧ (get_jwt_requests u).length = 1 := by
  have hb : raise_for_status_raises resp.status = true := by
    unfold raise_for_status_raises
    exact decide_eq_true h
  exact ⟨by simp [get_jwt_handle, hb], rfl⟩

/-- Witness for the amended C5 at a concrete 401 invalid-grant response. -/
theorem http_4xx_5xx_error_and_single_request_witness :
    get_jwt_handle resp401 = GetJwtResult.httpError 401 "invalid_grant"
    ∧ (get_jwt_requests "alice").length = 1 :=
  http_4xx_5xx_error_and_single_request resp401 "alice" (by decide)

/-! ## Claim C6: no output validation of the exchanged credentials -/

/-- Counterexample to claim C6 as stated: credentials that lack an expiry, and
credentials whose expiry (epoch 0) is already past, are both turned into an S3
client and returned — there is no protocol-violation failure path at all. -/
theorem credentials_without_expiry_returned :
    get_s4_client_from_creds
        { accessKeyId := "AK", secretAccessKey := "SK",
          sessionToken := some "ST", expiration := none }
      = { endpointUrl := S4_S3_URL, accessKeyId := "AK", secretAccessKey := "SK",
          sessionToken := some "ST", regionName := "us-east-1" }
    ∧ StsCredentials.expiration
        { accessKeyId := "AK", secretAccessKey := "SK",
          sessionToken := some "ST", expiration := none } = none
    ∧ get_s4_client_from_creds
        { accessKeyId := "AK", secretAccessKey := "SK",
          sessionToken := some "ST", expiration := some 0 }
      = { endpointUrl := S4_S3_URL, accessKeyId := "AK", secretAccessKey := "SK",
          sessionToken := some "ST", regionName := "us-east-1" }
    ∧ (0 : Int) < 100 :=
  ⟨rfl, rfl, rfl, by decide⟩

/-- Amended claim C6: the client is built unconditionally from whatever
credentials the provider returned — the expiry field is never consulted, so
expired or expiry-less credentials are returned rather than rejected. -/
theorem client_built_unconditionally (creds : StsCredentials) :
    get_s4_client_from_creds creds =
      { endpointUrl := S4_S3_URL, accessKeyId := creds.accessKeyId,
        secretAccessKey := creds.secretAccessKey, sessionToken := creds.sessionToken,
        regionName := "us-east-1" } :=
  rfl

/-! ## Claim C7: token value is returned unvalidated -/

/-- Counterexample to claim C7 as stated: a 200 response whose access_token
field is the empty string makes get_jwt return the empty token as a success —
emptiness is not checked. -/
theorem empty_token_returned_as_success :
    get_jwt_handle resp200empty = GetJwtResult.ok (JVal.s "")
    ∧ ("" : String).length = 0 :=
  ⟨rfl, rfl⟩

/-- Amended claim C7: on any response that raise_for_status lets through and
whose JSON body carries an access_token field, get_jwt returns that field's
value verbatim as success — including an empty value; non-emptiness is a
provider guarantee, not enforced by this code. -/
theorem success_returns_token_verbatim (resp : HttpResponse)
    (fields : List (String × JVal)) (v : JVal)
    (hst : ¬(400 ≤ resp.status ∧ resp.status < 600))
    (hj : resp.json = some (JVal.obj fields))
    (hl : jlookup fields "access_token" = some v) :
    get_jwt_handle resp = GetJwtResult.ok v := by
  have hb : raise_for_status_raises resp.status = false := by
    unfold raise_for_status_raises
    exact decide_eq_false hst
  simp [get_jwt_handle, hb, hj, hl]

/-- Witness for the amended C7 at a concrete 200 response with a normal token. -/
theorem success_returns_token_verbatim_witness :
    get_jwt_handle resp200ok = GetJwtResult.ok (JVal.s "tok-abc") :=
  success_returns_token_verbatim resp200ok [("access_token", JVal.s "tok-abc")]
    (JVal.s "tok-abc") (by decide) rfl rfl

/-! ## Claim C8: tagged upload -/

/-- toDigitsCore with an accumulator equals toDigitsCore with the empty
accumulator followed by the accumulator. -/
theorem toDigitsCore_acc (b : Nat) : ∀ (fuel n : Nat) (ds : List Char),
    Nat.toDigitsCore b fuel n ds = Nat.toDigitsCore b fuel n [] ++ ds := by
  intro fuel
  induction fuel with
  | zero =>
    intro n ds
    simp [Nat.toDigitsCore]
  | succ f ih =>
    intro n ds
    simp only [Nat.toDigitsCore]
    by_cases h : n / b = 0
    · simp [h]
    · rw [if_neg h, if_neg h, ih (n / b) (Nat.digitChar (n % b) :: ds),
        ih (n / b) [Nat.digitChar (n % b)]]
      simp

/-- Decoding inverts digitChar on single digits. -/
theorem decodeDigit_digitChar (d : Nat) (h : d < 10) : decodeDigit (Nat.digitChar d) = d := by
  interval_cases d <;> rfl

/-- Appending one digit multiplies the decoded value by ten and adds the digit. -/
theorem decodeDec_append_singleton (xs : List Char) (d : Char) :
    decodeDec (xs ++ [d]) = decodeDec xs * 10 + decodeDigit d := by
  simp [decodeDec, List.foldl_append]

/-- decodeDec inverts the decimal rendering core. -/
theorem decodeDec_toDigitsCore : ∀ (fuel n : Nat), n < fuel →
    decodeDec (Nat.toDigitsCore 10 fuel n []) = n := by
  intro fuel
  induction fuel with
  | zero =>
    intro n h
    omega
  | succ f ih =>
    intro n h
    simp only [Nat.toDigitsCore]
    by_cases h0 : n / 10 = 0
    · rw [if_pos h0]
      have hn : n < 10 := by omega
      simp [decodeDec, decodeDigit_digitChar n hn, Nat.mod_eq_of_lt hn]
    · rw [if_neg h0, toDigitsCore_acc 10 f (n / 10) [Nat.digitChar (n % 10)]]
      have hne : n ≠ 0 := by
        intro hz
        subst hz
        simp at h0
      have hd : n / 10 < f := by
        have h1 : n / 10 < n := Nat.div_lt_self (Nat.pos_of_ne_zero hne) (by norm_num)
        omega
      rw [decodeDec_append_singleton, ih (n / 10) hd,
        decodeDigit_digitChar (n % 10) (Nat.mod_lt _ (by norm_num))]
      omega

/-- The decimal rendering of naturals is injective. -/
theorem nat_toString_injective : Function.Injective (fun n : Nat => toString n) := by
  intro m n h
  have hdata : Nat.toDigits 10 m = Nat.toDigits 10 n := congrArg String.data h
  have hm : decodeDec (Nat.toDigits 10 m) = m :=
    decodeDec_toDigitsCore (m + 1) m (Nat.lt_succ_self m)
  have hn : decodeDec (Nat.toDigits 10 n) = n :=
    decodeDec_toDigitsCore (n + 1) n (Nat.lt_succ_self n)
  rw [hdata] at hm
  omega

/-- Distinct indices give distinct metadata keys. -/
theorem tag_key_injective : Function.Injective tag_key := by
  intro i j h
  have hd : ("tdf-data-attribute-" ++ toString i).data
      = ("tdf-data-attribute-" ++ toString j).data := congrArg String.data h
  rw [String.data_append, String.data_append] at hd
  have h2 : (toString i).data = (toString j).data := List.append_cancel_left hd
  exact nat_toString_injective (String.ext h2)

/-- The metadata keys of one upload are pairwise distinct, even when the
attribute values repeat. -/
theorem upload_metadata_keys_nodup (attributes : List String) :
    ((upload_metadata attributes).map Prod.fst).Nodup := by
  have h1 : (upload_metadata attributes).map Prod.fst
      = (attributes.enum.map Prod.fst).map tag_key := by
    rw [upload_metadata, List.map_map, List.map_map]
    rfl
  rw [h1, List.enum_map_fst]
  exact (List.nodup_range attributes.length).map tag_key_injective

/-- Claim C8: upload_to_s4 attaches the i-th attribute tag as its own metadata
entry under the index-qualified key `tdf-data-attribute-` ++ i — one entry per
tag, with pairwise-distinct keys, so duplicate tags each get a distinct
entry — and returns the object reference built deterministically as
`s3://` ++ bucket ++ `/` ++ filename with no rewriting. -/
theorem upload_metadata_and_uri_spec (filename payload : String) (attributes : List String) :
    ((upload_to_s4 filename payload attributes).1.metadata).length = attributes.length
    ∧ (∀ i (h1 : i < ((upload_to_s4 filename payload attributes).1.metadata).length)
        (h2 : i < attributes.length),
        ((upload_to_s4 filename payload attributes).1.metadata).get ⟨i, h1⟩
          = (tag_key i, attributes.get ⟨i, h2⟩))
    ∧ (((upload_to_s4 filename payload attributes).1.metadata).map Prod.fst).Nodup
    ∧ (upload_to_s4 filename payload attributes).2 = "s3://" ++ S4_BUCKET ++ "/" ++ filename := by
  refine ⟨?_, ?_, upload_metadata_keys_nodup attributes, rfl⟩
  · simp [upload_to_s4, upload_metadata]
  · intro i h1 h2
    simp [upload_to_s4, upload_metadata, List.getElem_enum]

/-- Witness for C8 at a duplicated attribute tag: two entries, distinct keys,
and the deterministic URI. -/
theorem upload_metadata_and_uri_spec_witness :
    (upload_to_s4 "f" "x" ["a", "a"]).1.metadata.length = 2
    ∧ ((upload_to_s4 "f" "x" ["a", "a"]).1.metadata.map Prod.fst).Nodup
    ∧ (upload_to_s4 "f" "x" ["a", "a"]).2 = "s3://cop-demo/f" := by
  obtain ⟨h1, h2, h3, h4⟩ := upload_metadata_and_uri_spec "f" "x" ["a", "a"]
  refine ⟨by simpa using h1, h3, ?_⟩
  rw [h4]
  rfl
